import Mathlib

/-!
Shallow embedding of `src/tools/tpg.rs` (a virtual GPY111 test packet
generator) and proofs about its register decoding and frame synthesis.

Machine integers (`u16`, `u8`, `usize`) are modelled as `Nat` with explicit
`% 2 ^ w` wherever the Rust code truncates.  Panics (`todo!`, `unreachable!`,
`process::exit`) and `Result`-returning paths are modelled with `Except`.
The external collaborators (argument source, network interface, transport
channel, RNG) are out of scope of the core; randomness is injected as an
explicit index / byte oracle exactly where the code draws from `rng`.
-/

/-- Errors surfaced by the tpg tool (decode failures, `todo!` panics,
the `should_run` rejection in `main`). -/
inductive TpgError where
  | reservedBitSet (corrected : Nat)
  | notEnabledOrStarted (value : Nat)
  | unimplementedPacketType
  | unimplementedContinuous
  | unimplementedChsel
  | unimplementedMopt
deriving DecidableEq, Repr

/-- `struct Reg(pub u16)` — the raw 16-bit register value. -/
structure Reg where
  val : Nat
deriving DecidableEq, Repr

/-- `Reg::nibble`: `((self.0 >> (idx * 4)) & 0xf) as u8`. -/
def Reg.nibble (r : Reg) (idx : Nat) : Nat :=
  (r.val >>> (idx * 4)) &&& 0xf

/-- `Reg::byte`: `(self.0 >> (idx * 8)) as u8` (the `as u8` truncates). -/
def Reg.byte (r : Reg) (idx : Nat) : Nat :=
  (r.val >>> (idx * 8)) % 256

/-- `struct Ctrl { pub bits: Reg }`. -/
structure Ctrl where
  bits : Reg
deriving DecidableEq, Repr

/-- `impl FromStr for Ctrl`, after the numeric literal has been parsed to a
16-bit value: reject when reserved bit 7 is set, reporting the value with
that bit flipped (`bits.0 ^ (0b1 << 7)`). -/
def Ctrl.decode (v : Nat) : Except TpgError Ctrl :=
  if (v >>> 7) &&& 0b1 ≠ 0 then
    Except.error (TpgError.reservedBitSet (v ^^^ (0b1 <<< 7)))
  else
    Except.ok ⟨⟨v⟩⟩

/-- `Ctrl::start`: `self.bits.0 & (1 << 1) != 0`. -/
def Ctrl.start (c : Ctrl) : Bool :=
  c.bits.val &&& (1 <<< 1) != 0

/-- `Ctrl::enable`: `self.bits.0 & (1 << 0) != 0`. -/
def Ctrl.enable (c : Ctrl) : Bool :=
  c.bits.val &&& (1 <<< 0) != 0

/-- `Ctrl::should_run`: `self.enable() && self.start()`. -/
def Ctrl.should_run (c : Ctrl) : Bool :=
  c.enable && c.start

/-- `enum Mode { Continuous, Single }`. -/
inductive Mode where
  | Continuous
  | Single
deriving DecidableEq, Repr

/-- `Ctrl::mode`: bit 13 clear means `Continuous`, set means `Single`. -/
def Ctrl.mode (c : Ctrl) : Mode :=
  if (c.bits.val >>> 13) &&& 0x1 = 0 then Mode.Continuous else Mode.Single

/-- `enum SizeOpt { Fixed { len: u16 }, Random }` — `len` is the total frame
size; `Random` chooses from `{64, 256, 1024, 1518}`. -/
inductive SizeOpt where
  | Fixed (len : Nat)
  | Random
deriving DecidableEq, Repr

/-- `Ctrl::size`: 3-bit field at bits 4-6; the Rust `8..=u16::MAX` arm is
`unreachable!` because the scrutinee is masked with `0x7`. -/
def Ctrl.size (c : Ctrl) : SizeOpt :=
  match (c.bits.val >>> 4) &&& 0x7 with
  | 0 => SizeOpt.Fixed 64
  | 1 => SizeOpt.Fixed 2048
  | 2 => SizeOpt.Fixed 256
  | 3 => SizeOpt.Fixed 4096
  | 4 => SizeOpt.Fixed 1024
  | 5 => SizeOpt.Fixed 1518
  | 6 => SizeOpt.Fixed 9000
  | _ => SizeOpt.Random

/-- `struct InterPacketGap { pub bitlen: u16 }`. -/
structure InterPacketGap where
  bitlen : Nat
deriving DecidableEq, Repr

/-- `Ctrl::ipgl`: 2-bit field at bits 10-11. -/
def Ctrl.ipgl (c : Ctrl) : InterPacketGap :=
  match (c.bits.val >>> 10) &&& 0b11 with
  | 0 => ⟨48⟩
  | 1 => ⟨96⟩
  | 2 => ⟨960⟩
  | _ => ⟨9600⟩

/-- `enum PacketType { Random, ByteInc, Predefined }`; the `Debug` variant is
commented out in the source. -/
inductive PacketType where
  | Random
  | ByteInc
  | Predefined
deriving DecidableEq, Repr

/-- `Ctrl::ptype`: 2-bit field at bits 8-9; pattern `0b11` hits
`todo!("Debug packet type not yet implemented")`, modelled as an error. -/
def Ctrl.ptype (c : Ctrl) : Except TpgError PacketType :=
  match (c.bits.val >>> 8) &&& 0b11 with
  | 0 => Except.ok PacketType.Random
  | 1 => Except.ok PacketType.ByteInc
  | 2 => Except.ok PacketType.Predefined
  | _ => Except.error TpgError.unimplementedPacketType

/-- `Ctrl::chsel`: `-> !` via `todo!()`; the diverging call is modelled as an
error value. -/
def Ctrl.chsel (_ : Ctrl) : Except TpgError Empty :=
  Except.error TpgError.unimplementedChsel

/-- `Ctrl::mopt`: `-> !` via `todo!()`; the diverging call is modelled as an
error value. -/
def Ctrl.mopt (_ : Ctrl) : Except TpgError Empty :=
  Except.error TpgError.unimplementedMopt

/-- `SizeOpt::is_jumbo`: a fixed length is jumbo when `*len > 1518`; random
sizes are never jumbo. -/
def SizeOpt.is_jumbo : SizeOpt → Bool
  | SizeOpt.Fixed len => len > 1518
  | SizeOpt.Random => false

/-- `struct Data { bits: Reg }`; `Data::default()` is the all-zero register. -/
structure Data where
  bits : Reg
deriving DecidableEq, Repr

/-- `MacAddr(a, b, c, d, e, f)` from the pnet crate — six octets. -/
structure MacAddr where
  a0 : Nat
  a1 : Nat
  a2 : Nat
  a3 : Nat
  a4 : Nat
  a5 : Nat
deriving DecidableEq, Repr

/-- `Data::dest_addr`: `MacAddr(0x00, 0x03, 0x19, 0xff, 0xff, 0xf0 | self.bits.nibble(3))`. -/
def Data.dest_addr (d : Data) : MacAddr :=
  ⟨0x00, 0x03, 0x19, 0xff, 0xff, 0xf0 ||| d.bits.nibble 3⟩

/-- `Data::src_addr`: `MacAddr(0x00, 0x03, 0x19, 0xff, 0xff, 0xf0 | self.bits.nibble(2))`. -/
def Data.src_addr (d : Data) : MacAddr :=
  ⟨0x00, 0x03, 0x19, 0xff, 0xff, 0xf0 ||| d.bits.nibble 2⟩

/-- `Data::frame_data`: `self.bits.byte(0)`. -/
def Data.frame_data (d : Data) : Nat :=
  d.bits.byte 0

/-- The slice `[64_u16, 256, 1024, 1518]` that `main` draws from for
`SizeOpt::Random` via `choose(&mut rng)`. -/
def randomSizeSet : List Nat := [64, 256, 1024, 1518]

/-- `payload_size` closure in `main`: `sz as usize - 18` (per the datasheet
convention the total frame size includes header and trailer). -/
def payload_size (sz : Nat) : Nat := sz - 18

/-- The total frame length `main` resolves from `ctrl.size()` before
subtracting 18: a fixed length, or the element of `randomSizeSet` selected
by the injected random draw (`choose` picks one of the four entries). -/
def resolvedTotalLen (c : Ctrl) (choice : Nat) : Nat :=
  match c.size with
  | SizeOpt.Fixed len => len
  | SizeOpt.Random => randomSizeSet.getD (choice % 4) 64

/-- One synthesized Ethernet frame: the 14-byte header is the two MAC
addresses plus the 2-byte EtherType field (repurposed to carry the payload
length), followed by the payload bytes. -/
structure Frame where
  dest : MacAddr
  src : MacAddr
  ethertype : Nat
  payload : List Nat
deriving DecidableEq, Repr

/-- One payload octet, per `packet_gen`'s loop body: `Random` draws a byte
from the injected oracle, `ByteInc` is `i as u8`, `Predefined` is
`data.frame_data()`. -/
def genPayloadByte (pt : PacketType) (d : Data) (rnd : Nat → Nat) (i : Nat) : Nat :=
  match pt with
  | PacketType.Random => rnd i % 256
  | PacketType.ByteInc => i % 256
  | PacketType.Predefined => d.frame_data

/-- The `packet_gen` closure in `main`: sets the EtherType field to
`size as u16`, the source and destination addresses from `data`, and fills
each payload octet per `ctrl.ptype()`.  `ptype` is called inside the loop,
so its `todo!` panic fires iff the payload is non-empty. -/
def packet_gen (c : Ctrl) (d : Data) (size : Nat) (rnd : Nat → Nat) :
    Except TpgError Frame :=
  if size = 0 then
    Except.ok ⟨d.dest_addr, d.src_addr, size % 65536, []⟩
  else
    match c.ptype with
    | Except.error e => Except.error e
    | Except.ok pt =>
        Except.ok ⟨d.dest_addr, d.src_addr, size % 65536,
          (List.range size).map (genPayloadByte pt d rnd)⟩

/-- The core of `main` after argument parsing, with transport emission
abstracted away: reject unless `should_run`; `Mode::Continuous` hits
`todo!("continuous mode")`; otherwise resolve the frame size and synthesize
the single frame that is then handed to `tx.send_to`. -/
def run (c : Ctrl) (d : Data) (choice : Nat) (rnd : Nat → Nat) :
    Except TpgError Frame :=
  if !c.should_run then
    Except.error (TpgError.notEnabledOrStarted c.bits.val)
  else
    match c.mode with
    | Mode.Continuous => Except.error TpgError.unimplementedContinuous
    | Mode.Single =>
        packet_gen c d (payload_size (resolvedTotalLen c choice)) rnd

/-! ### Decidability and helper lemmas -/

instance {ε α : Type} [DecidableEq ε] [DecidableEq α] : DecidableEq (Except ε α) := fun a b =>
  match a, b with
  | Except.error x, Except.error y =>
      if h : x = y then Decidable.isTrue (by rw [h]) else Decidable.isFalse (by simp [h])
  | Except.error _, Except.ok _ => Decidable.isFalse (by simp)
  | Except.ok _, Except.error _ => Decidable.isFalse (by simp)
  | Except.ok x, Except.ok y =>
      if h : x = y then Decidable.isTrue (by rw [h]) else Decidable.isFalse (by simp [h])

lemma and_seven_lt (x : Nat) : x &&& 0x7 < 8 := by
  have h := Nat.and_pow_two_sub_one_eq_mod x 3
  norm_num at h
  omega

lemma and_three_lt (x : Nat) : x &&& 0b11 < 4 := by
  have h := Nat.and_pow_two_sub_one_eq_mod x 2
  norm_num at h
  omega

lemma and_fifteen_lt (x : Nat) : x &&& 0xf < 16 := by
  have h := Nat.and_pow_two_sub_one_eq_mod x 4
  norm_num at h
  omega

lemma nibble_lt (r : Reg) (idx : Nat) : r.nibble idx < 16 :=
  and_fifteen_lt _

lemma decode_ok_inv (v : Nat) (c : Ctrl) (h : Ctrl.decode v = Except.ok c) :
    c = ⟨⟨v⟩⟩ := by
  unfold Ctrl.decode at h
  by_cases hb : (v >>> 7) &&& 0b1 ≠ 0
  · rw [if_pos hb] at h
    exact absurd h (by simp)
  · rw [if_neg hb] at h
    simp only [Except.ok.injEq] at h
    exact h.symm

lemma size_cases (c : Ctrl) :
    c.size = SizeOpt.Fixed 64 ∨ c.size = SizeOpt.Fixed 2048 ∨ c.size = SizeOpt.Fixed 256 ∨
      c.size = SizeOpt.Fixed 4096 ∨ c.size = SizeOpt.Fixed 1024 ∨
      c.size = SizeOpt.Fixed 1518 ∨ c.size = SizeOpt.Fixed 9000 ∨
      c.size = SizeOpt.Random := by
  have hlt : (c.bits.val >>> 4) &&& 0x7 < 8 := and_seven_lt _
  unfold Ctrl.size
  set k := (c.bits.val >>> 4) &&& 0x7 with hk
  interval_cases k <;> simp

lemma resolvedTotalLen_fixed (c : Ctrl) (choice len : Nat)
    (hs : c.size = SizeOpt.Fixed len) : resolvedTotalLen c choice = len := by
  unfold resolvedTotalLen
  rw [hs]

lemma resolvedTotalLen_random (c : Ctrl) (choice : Nat)
    (hs : c.size = SizeOpt.Random) :
    resolvedTotalLen c choice = randomSizeSet.getD (choice % 4) 64 := by
  unfold resolvedTotalLen
  rw [hs]

lemma randomSizeSet_getD_mem (choice : Nat) :
    randomSizeSet.getD (choice % 4) 64 ∈ randomSizeSet := by
  have h4 : choice % 4 < 4 := by omega
  set k := choice % 4 with hk
  interval_cases k <;> decide

lemma resolvedTotalLen_bounds (c : Ctrl) (choice : Nat) :
    64 ≤ resolvedTotalLen c choice ∧ resolvedTotalLen c choice ≤ 9000 := by
  rcases size_cases c with hs | hs | hs | hs | hs | hs | hs | hs
  all_goals try (rw [resolvedTotalLen_fixed c choice _ hs]; exact ⟨by decide, by decide⟩)
  rw [resolvedTotalLen_random c choice hs]
  have h4 : choice % 4 < 4 := by omega
  set k := choice % 4 with hk
  interval_cases k <;> exact ⟨by decide, by decide⟩

lemma run_ok_inv (c : Ctrl) (d : Data) (choice : Nat) (rnd : Nat → Nat) (f : Frame)
    (h : run c d choice rnd = Except.ok f) :
    c.should_run = true ∧ c.mode = Mode.Single ∧
      packet_gen c d (payload_size (resolvedTotalLen c choice)) rnd = Except.ok f := by
  unfold run at h
  by_cases hr : c.should_run
  · refine ⟨hr, ?_⟩
    rw [hr] at h
    simp only [Bool.not_true, Bool.false_eq_true, if_false] at h
    cases hm : c.mode with
    | Continuous => rw [hm] at h; simp at h
    | Single => rw [hm] at h; exact ⟨rfl, h⟩
  · rw [Bool.not_eq_true] at hr
    rw [hr] at h
    simp at h

lemma packet_gen_ok_inv (c : Ctrl) (d : Data) (size : Nat) (rnd : Nat → Nat) (f : Frame)
    (h : packet_gen c d size rnd = Except.ok f) :
    f.dest = d.dest_addr ∧ f.src = d.src_addr ∧ f.ethertype = size % 65536 ∧
      f.payload.length = size ∧
      (∀ pt, c.ptype = Except.ok pt →
        f.payload = (List.range size).map (genPayloadByte pt d rnd)) := by
  unfold packet_gen at h
  by_cases hz : size = 0
  · simp only [hz, if_true, Except.ok.injEq] at h
    subst h
    subst hz
    refine ⟨rfl, rfl, rfl, rfl, ?_⟩
    intro pt _
    simp
  · simp only [hz, if_false] at h
    revert h
    cases hp : c.ptype with
    | error e => intro h; exact absurd h (by simp)
    | ok pt =>
        intro h
        simp only [Except.ok.injEq] at h
        subst h
        refine ⟨rfl, rfl, rfl, by simp, ?_⟩
        intro pt2 hpt2
        simp only [Except.ok.injEq] at hpt2
        subst hpt2
        rfl

/-! ### Claim theorems -/

/-- C1: For every CTRL register value that decodes successfully, the 3-bit
size-policy field (bits 4-6) maps exactly as: 0 to fixed length 64, 1 to
2048, 2 to 256, 3 to 4096, 4 to 1024, 5 to 1518, 6 to 9000, and value 7 to
a random choice drawn from exactly the set {64, 256, 1024, 1518}. -/
theorem ctrl_size_policy_table (v : Nat) (c : Ctrl) (h : Ctrl.decode v = Except.ok c) :
    ((v >>> 4) &&& 0x7 = 0 → c.size = SizeOpt.Fixed 64)
  ∧ ((v >>> 4) &&& 0x7 = 1 → c.size = SizeOpt.Fixed 2048)
  ∧ ((v >>> 4) &&& 0x7 = 2 → c.size = SizeOpt.Fixed 256)
  ∧ ((v >>> 4) &&& 0x7 = 3 → c.size = SizeOpt.Fixed 4096)
  ∧ ((v >>> 4) &&& 0x7 = 4 → c.size = SizeOpt.Fixed 1024)
  ∧ ((v >>> 4) &&& 0x7 = 5 → c.size = SizeOpt.Fixed 1518)
  ∧ ((v >>> 4) &&& 0x7 = 6 → c.size = SizeOpt.Fixed 9000)
  ∧ ((v >>> 4) &&& 0x7 = 7 →
       c.size = SizeOpt.Random
       ∧ randomSizeSet = [64, 256, 1024, 1518]
       ∧ (∀ choice : Nat, resolvedTotalLen c choice ∈ randomSizeSet)
       ∧ (∀ x ∈ randomSizeSet, ∃ choice : Nat, resolvedTotalLen c choice = x)) := by
  obtain rfl : c = ⟨⟨v⟩⟩ := decode_ok_inv v c h
  refine ⟨fun hf => ?_, fun hf => ?_, fun hf => ?_, fun hf => ?_, fun hf => ?_,
    fun hf => ?_, fun hf => ?_, fun hf => ?_⟩
  · unfold Ctrl.size; simp only [hf]
  · unfold Ctrl.size; simp only [hf]
  · unfold Ctrl.size; simp only [hf]
  · unfold Ctrl.size; simp only [hf]
  · unfold Ctrl.size; simp only [hf]
  · unfold Ctrl.size; simp only [hf]
  · unfold Ctrl.size; simp only [hf]
  · have hr : Ctrl.size ⟨⟨v⟩⟩ = SizeOpt.Random := by unfold Ctrl.size; simp only [hf]
    refine ⟨hr, rfl, fun choice => ?_, fun x hx => ?_⟩
    · rw [resolvedTotalLen_random _ choice hr]
      exact randomSizeSet_getD_mem choice
    · fin_cases hx
      · exact ⟨0, (resolvedTotalLen_random _ 0 hr).trans (by decide)⟩
      · exact ⟨1, (resolvedTotalLen_random _ 1 hr).trans (by decide)⟩
      · exact ⟨2, (resolvedTotalLen_random _ 2 hr).trans (by decide)⟩
      · exact ⟨3, (resolvedTotalLen_random _ 3 hr).trans (by decide)⟩

theorem ctrl_size_policy_table_witness :
    Ctrl.decode 0x70 = Except.ok ⟨⟨0x70⟩⟩
  ∧ Ctrl.size ⟨⟨0x70⟩⟩ = SizeOpt.Random :=
  ⟨by decide, ((ctrl_size_policy_table 0x70 ⟨⟨0x70⟩⟩ (by decide)).2.2.2.2.2.2.2 (by decide)).1⟩

/-- C2: For every 16-bit value with bit 7 set, decoding it as a CTRL
register fails with a reserved-bit error reporting the corrected value with
bit 7 cleared (and all other bits unchanged); for every 16-bit value with
bit 7 clear, CTRL decoding succeeds. -/
theorem ctrl_decode_reserved_bit (v : Nat) (hv : v < 65536) :
    (Nat.testBit v 7 = true →
        Ctrl.decode v = Except.error (TpgError.reservedBitSet (v ^^^ (0b1 <<< 7)))
      ∧ Nat.testBit (v ^^^ (0b1 <<< 7)) 7 = false
      ∧ (∀ i : Nat, i ≠ 7 → Nat.testBit (v ^^^ (0b1 <<< 7)) i = Nat.testBit v i))
  ∧ (Nat.testBit v 7 = false → Ctrl.decode v = Except.ok ⟨⟨v⟩⟩) := by
  have hbit : (v >>> 7) &&& 0b1 = (Nat.testBit v 7).toNat := by
    rw [Nat.and_one_is_mod, Nat.shiftRight_eq_div_pow, Nat.testBit_to_div_mod]
    rcases Nat.mod_two_eq_zero_or_one (v / 2 ^ 7) with h | h <;> norm_num at h <;> simp [h]
  constructor
  · intro ht
    have hcond : (v >>> 7) &&& 0b1 ≠ 0 := by rw [hbit, ht]; simp
    refine ⟨by unfold Ctrl.decode; rw [if_pos hcond], ?_, fun i hi => ?_⟩
    · have h1 := Nat.testBit_xor v (0b1 <<< 7) 7
      rw [ht] at h1
      have h2 : Nat.testBit (0b1 <<< 7) 7 = true := by decide
      rw [h2] at h1
      simpa using h1
    · rw [Nat.testBit_xor]
      have h128 : Nat.testBit (0b1 <<< 7) i = false := by
        rw [show ((0b1 : Nat) <<< 7) = 2 ^ 7 by decide, Nat.testBit_two_pow]
        simpa using fun hc => hi hc.symm
      rw [h128]
      simp
  · intro ht
    have hcond : ¬ ((v >>> 7) &&& 0b1 ≠ 0) := by rw [hbit, ht]; simp
    unfold Ctrl.decode
    rw [if_neg hcond]

theorem ctrl_decode_reserved_bit_witness :
    (0x80 : Nat) < 65536
  ∧ Ctrl.decode 0x80 = Except.error (TpgError.reservedBitSet (0x80 ^^^ (0b1 <<< 7))) :=
  ⟨by decide, ((ctrl_decode_reserved_bit 0x80 (by decide)).1 (by decide)).1⟩

/-- C3: For every DATA register value, the decoded destination MAC is
00:03:19:FF:FF:(0xF0 OR nibble 3) and the decoded source MAC is
00:03:19:FF:FF:(0xF0 OR nibble 2); both share the fixed 5-octet prefix and
differ only in the low nibble of the final octet (the high nibble of the
final octet is always 0xF and the low nibble is exactly the register
nibble). -/
theorem data_mac_addresses (d : Data) :
    d.dest_addr = ⟨0x00, 0x03, 0x19, 0xff, 0xff, 0xf0 ||| d.bits.nibble 3⟩
  ∧ d.src_addr = ⟨0x00, 0x03, 0x19, 0xff, 0xff, 0xf0 ||| d.bits.nibble 2⟩
  ∧ (0xf0 ||| d.bits.nibble 3) / 16 = 0xf
  ∧ (0xf0 ||| d.bits.nibble 3) % 16 = d.bits.nibble 3
  ∧ (0xf0 ||| d.bits.nibble 2) / 16 = 0xf
  ∧ (0xf0 ||| d.bits.nibble 2) % 16 = d.bits.nibble 2 := by
  have hor : ∀ k : Nat, k < 16 → (0xf0 ||| k) / 16 = 0xf ∧ (0xf0 ||| k) % 16 = k := by
    intro k hk
    interval_cases k <;> exact ⟨by decide, by decide⟩
  have h3 := hor _ (nibble_lt d.bits 3)
  have h2 := hor _ (nibble_lt d.bits 2)
  exact ⟨rfl, rfl, h3.1, h3.2, h2.1, h2.2⟩

/-- C4: For every resolved total frame length L produced by the size policy,
the synthesized frame's payload length equals L − 18, and the 2-byte
length-indicator (EtherType) field of the 14-byte header is set to exactly
that payload length. -/
theorem frame_payload_length_and_indicator (c : Ctrl) (d : Data) (choice : Nat)
    (rnd : Nat → Nat) (f : Frame) (h : run c d choice rnd = Except.ok f) :
    f.payload.length = resolvedTotalLen c choice - 18
  ∧ f.ethertype = f.payload.length := by
  obtain ⟨hr, hm, hpg⟩ := run_ok_inv c d choice rnd f h
  obtain ⟨_, _, het, hlen, _⟩ := packet_gen_ok_inv c d _ rnd f hpg
  have hb := resolvedTotalLen_bounds c choice
  constructor
  · rw [hlen]
    rfl
  · rw [het, hlen]
    unfold payload_size
    omega

theorem frame_payload_length_and_indicator_witness :
    run ⟨⟨0x2003⟩⟩ ⟨⟨0⟩⟩ 0 (fun _ => 0) =
      Except.ok ⟨⟨0x00, 0x03, 0x19, 0xff, 0xff, 0xf0⟩, ⟨0x00, 0x03, 0x19, 0xff, 0xff, 0xf0⟩,
        46, List.replicate 46 0⟩
  ∧ ((⟨⟨0x00, 0x03, 0x19, 0xff, 0xff, 0xf0⟩, ⟨0x00, 0x03, 0x19, 0xff, 0xff, 0xf0⟩,
        46, List.replicate 46 0⟩ : Frame).payload.length = resolvedTotalLen ⟨⟨0x2003⟩⟩ 0 - 18
     ∧ (⟨⟨0x00, 0x03, 0x19, 0xff, 0xff, 0xf0⟩, ⟨0x00, 0x03, 0x19, 0xff, 0xff, 0xf0⟩,
        46, List.replicate 46 0⟩ : Frame).ethertype =
       (⟨⟨0x00, 0x03, 0x19, 0xff, 0xff, 0xf0⟩, ⟨0x00, 0x03, 0x19, 0xff, 0xff, 0xf0⟩,
        46, List.replicate 46 0⟩ : Frame).payload.length) :=
  ⟨by decide,
    frame_payload_length_and_indicator ⟨⟨0x2003⟩⟩ ⟨⟨0⟩⟩ 0 (fun _ => 0)
      ⟨⟨0x00, 0x03, 0x19, 0xff, 0xff, 0xf0⟩, ⟨0x00, 0x03, 0x19, 0xff, 0xff, 0xf0⟩,
        46, List.replicate 46 0⟩ (by decide)⟩

/-- C5: For every synthesized frame with payload length N: if the packet
type is ByteIncrement then the payload byte at offset i equals i mod 256
for every i in [0, N); if the packet type is Predefined then every payload
byte equals byte 0 of the DATA register. -/
theorem payload_fill_policies (c : Ctrl) (d : Data) (choice : Nat)
    (rnd : Nat → Nat) (f : Frame) (h : run c d choice rnd = Except.ok f) :
    (c.ptype = Except.ok PacketType.ByteInc →
       ∀ i, i < f.payload.length → f.payload.getD i 0 = i % 256)
  ∧ (c.ptype = Except.ok PacketType.Predefined →
       ∀ i, i < f.payload.length → f.payload.getD i 0 = d.frame_data) := by
  obtain ⟨hr, hm, hpg⟩ := run_ok_inv c d choice rnd f h
  obtain ⟨_, _, _, hlen, hpay⟩ := packet_gen_ok_inv c d _ rnd f hpg
  constructor
  · intro hpt i hi
    have hp := hpay _ hpt
    rw [hp] at hi ⊢
    rw [List.getD_eq_getElem _ _ hi]
    simp [genPayloadByte]
  · intro hpt i hi
    have hp := hpay _ hpt
    rw [hp] at hi ⊢
    rw [List.getD_eq_getElem _ _ hi]
    simp [genPayloadByte]

theorem payload_fill_policies_witness :
    run ⟨⟨0x2103⟩⟩ ⟨⟨0⟩⟩ 0 (fun _ => 0) =
      Except.ok ⟨⟨0x00, 0x03, 0x19, 0xff, 0xff, 0xf0⟩, ⟨0x00, 0x03, 0x19, 0xff, 0xff, 0xf0⟩,
        46, List.range 46⟩
  ∧ (⟨⟨0x00, 0x03, 0x19, 0xff, 0xff, 0xf0⟩, ⟨0x00, 0x03, 0x19, 0xff, 0xff, 0xf0⟩,
        46, List.range 46⟩ : Frame).payload.getD 5 0 = 5 % 256 :=
  ⟨by decide,
    (payload_fill_policies ⟨⟨0x2103⟩⟩ ⟨⟨0⟩⟩ 0 (fun _ => 0)
      ⟨⟨0x00, 0x03, 0x19, 0xff, 0xff, 0xf0⟩, ⟨0x00, 0x03, 0x19, 0xff, 0xff, 0xf0⟩,
        46, List.range 46⟩ (by decide)).1 (by decide) 5 (by decide)⟩

/-- C6 (counterexample): at CTRL value 3 (enable and start both set, mode
bit 13 clear, i.e. Continuous) the generation driver does not enter a
running emission loop: it fails with the `todo!("continuous mode")` panic
before creating the transport channel, and emits no frame. -/
theorem continuous_mode_counterexample :
    Ctrl.should_run ⟨⟨3⟩⟩ = true
  ∧ Ctrl.mode ⟨⟨3⟩⟩ = Mode.Continuous
  ∧ run ⟨⟨3⟩⟩ ⟨⟨0⟩⟩ 0 (fun _ => 0) = Except.error TpgError.unimplementedContinuous :=
  ⟨by decide, by decide, by decide⟩

/-- C6 (amended): for every CTRL value in Continuous mode whose enable and
start bits are both set, the generation driver does not run a paced
emission loop: it fails with the unimplemented-continuous-mode error (the
code's `todo!("continuous mode")`) and never synthesizes or emits any
frame. -/
theorem continuous_mode_unimplemented (c : Ctrl) (d : Data) (choice : Nat)
    (rnd : Nat → Nat) (hm : c.mode = Mode.Continuous) (hr : c.should_run = true) :
    run c d choice rnd = Except.error TpgError.unimplementedContinuous := by
  unfold run
  rw [hr, hm]
  simp

theorem continuous_mode_unimplemented_witness :
    run ⟨⟨3⟩⟩ ⟨⟨1⟩⟩ 1 (fun _ => 1) = Except.error TpgError.unimplementedContinuous :=
  continuous_mode_unimplemented ⟨⟨3⟩⟩ ⟨⟨1⟩⟩ 1 (fun _ => 1) (by decide) (by decide)

/-- C7 (counterexample): three selectable fixed lengths — 2048 (size field
1), 4096 (field 3) and 9000 (field 6) — are all flagged jumbo, refuting
"exactly the two largest fixed frame lengths are flagged as jumbo": 2048 is
selectable, strictly smaller than both 4096 and 9000, and still jumbo. -/
theorem jumbo_count_counterexample :
    Ctrl.size ⟨⟨0x10⟩⟩ = SizeOpt.Fixed 2048
  ∧ Ctrl.size ⟨⟨0x30⟩⟩ = SizeOpt.Fixed 4096
  ∧ Ctrl.size ⟨⟨0x60⟩⟩ = SizeOpt.Fixed 9000
  ∧ SizeOpt.is_jumbo (SizeOpt.Fixed 2048) = true
  ∧ SizeOpt.is_jumbo (SizeOpt.Fixed 4096) = true
  ∧ SizeOpt.is_jumbo (SizeOpt.Fixed 9000) = true :=
  ⟨by decide, by decide, by decide, by decide, by decide, by decide⟩

/-- C7 (amended): exactly the three largest fixed frame lengths selectable
by the size policy (2048, 4096 and 9000) are flagged jumbo; the jumbo
predicate on a decoded size policy holds iff the policy is a fixed length
whose total exceeds 1518 bytes, and a Random size policy is never flagged
jumbo. -/
theorem jumbo_iff_fixed_gt_1518 (s : SizeOpt) :
    (SizeOpt.is_jumbo s = true ↔ ∃ len, s = SizeOpt.Fixed len ∧ 1518 < len)
  ∧ SizeOpt.is_jumbo SizeOpt.Random = false
  ∧ (∀ c : Ctrl, SizeOpt.is_jumbo (Ctrl.size c) = true ↔
       (Ctrl.size c = SizeOpt.Fixed 2048 ∨ Ctrl.size c = SizeOpt.Fixed 4096 ∨
        Ctrl.size c = SizeOpt.Fixed 9000)) := by
  refine ⟨?_, rfl, fun c => ?_⟩
  · cases s <;> simp [SizeOpt.is_jumbo]
  · rcases size_cases c with hs | hs | hs | hs | hs | hs | hs | hs <;> rw [hs] <;> decide

/-- C8: should_run() returns true if and only if CTRL bit 0 (enable) and
bit 1 (start) are both set; when it is false, generation fails with
NotEnabledOrStarted and no frame is ever synthesized or emitted from the
rejected register value. -/
theorem should_run_gating (c : Ctrl) (d : Data) (choice : Nat) (rnd : Nat → Nat) :
    (c.should_run = true ↔
      (Nat.testBit c.bits.val 0 = true ∧ Nat.testBit c.bits.val 1 = true))
  ∧ (c.should_run = false →
       run c d choice rnd = Except.error (TpgError.notEnabledOrStarted c.bits.val)) := by
  have he : c.enable = Nat.testBit c.bits.val 0 := by
    unfold Ctrl.enable
    rw [show (1 <<< 0 : Nat) = 1 by decide, Nat.and_one_is_mod, Nat.testBit_to_div_mod]
    rcases Nat.mod_two_eq_zero_or_one c.bits.val with h | h <;> simp [Nat.div_one, h]
  have hst : c.start = Nat.testBit c.bits.val 1 := by
    unfold Ctrl.start
    rw [show (1 <<< 1 : Nat) = 2 ^ 1 by decide, Nat.and_two_pow]
    cases hb : Nat.testBit c.bits.val 1 <;> simp [hb]
  constructor
  · unfold Ctrl.should_run
    rw [he, hst]
    cases hb0 : Nat.testBit c.bits.val 0 <;> cases hb1 : Nat.testBit c.bits.val 1 <;> simp
  · intro hf
    unfold run
    rw [hf]
    simp

theorem should_run_gating_witness :
    (Ctrl.should_run ⟨⟨4⟩⟩ = true ↔
      (Nat.testBit (4 : Nat) 0 = true ∧ Nat.testBit (4 : Nat) 1 = true))
  ∧ run ⟨⟨4⟩⟩ ⟨⟨0⟩⟩ 2 (fun _ => 2) = Except.error (TpgError.notEnabledOrStarted 4) :=
  ⟨(should_run_gating ⟨⟨4⟩⟩ ⟨⟨0⟩⟩ 2 (fun _ => 2)).1,
   (should_run_gating ⟨⟨4⟩⟩ ⟨⟨0⟩⟩ 2 (fun _ => 2)).2 (by decide)⟩

/-- C9: For every CTRL value selecting an unimplemented option — packet-type
bits 8-9 equal to 0b11 (Debug), or an access to channel_select or
management_option — the operation fails loudly with an unimplemented-option
error and never silently substitutes a different behavior or guessed
value. -/
theorem unimplemented_options_fail (c : Ctrl) :
    ((c.bits.val >>> 8) &&& 0b11 = 3 →
        c.ptype = Except.error TpgError.unimplementedPacketType)
  ∧ (∀ pt, c.ptype = Except.ok pt → (c.bits.val >>> 8) &&& 0b11 ≠ 3)
  ∧ c.chsel = Except.error TpgError.unimplementedChsel
  ∧ c.mopt = Except.error TpgError.unimplementedMopt := by
  refine ⟨fun hf => ?_, fun pt hpt hf => ?_, rfl, rfl⟩
  · unfold Ctrl.ptype
    simp only [hf]
  · have herr : c.ptype = Except.error TpgError.unimplementedPacketType := by
      unfold Ctrl.ptype
      simp only [hf]
    rw [herr] at hpt
    exact absurd hpt (by simp)

theorem unimplemented_options_fail_witness :
    Ctrl.ptype ⟨⟨0x300⟩⟩ = Except.error TpgError.unimplementedPacketType
  ∧ Ctrl.chsel ⟨⟨0x300⟩⟩ = Except.error TpgError.unimplementedChsel
  ∧ Ctrl.mopt ⟨⟨0x300⟩⟩ = Except.error TpgError.unimplementedMopt :=
  ⟨(unimplemented_options_fail ⟨⟨0x300⟩⟩).1 (by decide),
   (unimplemented_options_fail ⟨⟨0x300⟩⟩).2.2.1,
   (unimplemented_options_fail ⟨⟨0x300⟩⟩).2.2.2⟩

/-- C10: For every successfully decoded CTRL register, every total frame
size its size policy can yield (any of the seven fixed lengths, or any
element of the random set) is at least 64, so the payload-length
computation total − 18 can never underflow (the subtraction is exact) and
the payload length is always at least 46. -/
theorem size_policy_no_underflow (v : Nat) (c : Ctrl)
    (h : Ctrl.decode v = Except.ok c) (choice : Nat) :
    64 ≤ resolvedTotalLen c choice
  ∧ payload_size (resolvedTotalLen c choice) + 18 = resolvedTotalLen c choice
  ∧ 46 ≤ payload_size (resolvedTotalLen c choice) := by
  have hb := resolvedTotalLen_bounds c choice
  unfold payload_size
  exact ⟨hb.1, by omega, by omega⟩

theorem size_policy_no_underflow_witness :
    Ctrl.decode 0 = Except.ok ⟨⟨0⟩⟩
  ∧ (64 ≤ resolvedTotalLen ⟨⟨0⟩⟩ 0
     ∧ payload_size (resolvedTotalLen ⟨⟨0⟩⟩ 0) + 18 = resolvedTotalLen ⟨⟨0⟩⟩ 0
     ∧ 46 ≤ payload_size (resolvedTotalLen ⟨⟨0⟩⟩ 0)) :=
  ⟨by decide, size_policy_no_underflow 0 ⟨⟨0⟩⟩ (by decide) 0⟩
